import Mathlib

/-!
Verification of the inference-worker adapter: a shallow embedding of
`src/utils.py` (the `JobInput` normalizer), `src/engine.py`
(`LlamaCPPEngine.generate`, `LlamaCPPOpenAIEngine.generate` and its two
route handlers) and `src/handler.py` (the `handler` pipeline), together
with theorems settling the spec's claims about routing, streaming frame
format, error conversion, model resolution and determinism.

Modelling conventions:
- Python values that flow through the adapter (job maps, payloads,
  response dicts, chunks) are a `Val` JSON-like tree.
- The external OpenAI-compatible client is a `Client`: a record of the
  three call surfaces the code uses. `listModels` is indexed by a call
  counter so that "no caching across requests" is observable; a counter
  is threaded through the engine functions and incremented at each
  `client.models.list()` call site.
- A fallible client call is `Except String α`: `.error msg` is a raised
  exception carrying `str(e) = msg`.
- An async generator body is `GenOut := List OutputUnit × Option String`:
  the units yielded so far paired with an exception that escaped the
  body (`none` when the body ran to completion). A Python
  `try: ... except Exception as e: yield {error: str(e)}` block is the
  `catchAll` combinator on such a body.
-/

/-- JSON-like values: the Python dicts, lists, strings, numbers, booleans
and `None` that flow through the adapter. Dicts are association lists in
insertion order (Python dict keys are unique). -/
inductive Val where
  | none : Val
  | bool (b : Bool) : Val
  | int (n : Int) : Val
  | str (s : String) : Val
  | list (xs : List Val) : Val
  | dict (kvs : List (String × Val)) : Val

/-- Python `==` between an adapter value and a string literal: true
exactly when the value is that string (a non-string value is never equal
to a string). -/
def valEqStr : Val → String → Bool
  | .str s, t => s = t
  | _, _ => false

/-- Python truthiness (`if x:`) for the values `Val` models. -/
def Val.truthy : Val → Bool
  | .none => false
  | .bool b => b
  | .int n => n != 0
  | .str s => s ≠ ""
  | .list xs => !xs.isEmpty
  | .dict kvs => !kvs.isEmpty

/-- `isinstance(x, str)`. -/
def isStr : Val → Bool
  | .str _ => true
  | _ => false

/-- Lookup in a Python dict modelled as an association list:
`d[k]` when present, else `Option.none`. -/
def dget (kvs : List (String × Val)) (k : String) : Option Val :=
  (kvs.find? (fun kv => kv.1 = k)).map (fun kv => kv.2)

/-- `d.get(k, default)`: the stored value when the key is present (even
when that value is `None`), else the default. -/
def pyGet (kvs : List (String × Val)) (k : String) (dflt : Val) : Val :=
  (dget kvs k).getD dflt

/-- The canonical request record built by `utils.JobInput.__init__`. -/
structure JobInput where
  llm_input : Val
  stream : Val
  openai_route : Val
  openai_input : Val

/-- `utils.JobInput.__init__`:
`llm_input = job.get("messages", job.get("prompt"))`,
`stream = job.get("stream", False)`,
`openai_route = job.get("openai_route")`,
`openai_input = job.get("openai_input")`. -/
def JobInput.init (job : List (String × Val)) : JobInput :=
  { llm_input := pyGet job "messages" (pyGet job "prompt" Val.none)
    stream := pyGet job "stream" (Val.bool false)
    openai_route := pyGet job "openai_route" Val.none
    openai_input := pyGet job "openai_input" Val.none }

/-- Lower-case hex digit, as CPython's JSON encoder emits in
`\uXXXX` escapes. -/
def hexDigit (n : Nat) : Char :=
  if n < 10 then Char.ofNat (48 + n) else Char.ofNat (87 + n)

/-- Four lower-case hex digits of a code unit: the base-16 digits of
the four nibbles, most significant first. -/
def hex4 (n : Nat) : List Char :=
  [n / 4096, n / 256, n / 16, n].map (fun k => hexDigit (k % 16))

/-- How `json.dumps` (default `ensure_ascii=True`) renders one character
inside a JSON string: the two-character short escapes, `\uXXXX` for other
control or non-ASCII characters (a surrogate pair above U+FFFF), and the
character itself for printable ASCII. -/
def escChar (c : Char) : List Char :=
  if c = '"' then ['\\', '"']
  else if c = '\\' then ['\\', '\\']
  else if c = '\n' then ['\\', 'n']
  else if c = '\r' then ['\\', 'r']
  else if c = '\t' then ['\\', 't']
  else if c.toNat = 8 then ['\\', 'b']
  else if c.toNat = 12 then ['\\', 'f']
  else if c.toNat < 32 ∨ 126 < c.toNat then
    if c.toNat < 65536 then '\\' :: 'u' :: hex4 c.toNat
    else
      ('\\' :: 'u' :: hex4 (55296 + (c.toNat - 65536) / 1024)) ++
        ('\\' :: 'u' :: hex4 (56320 + (c.toNat - 65536) % 1024))
  else [c]

/-- Characters of a JSON string literal: quotes around the escaped body. -/
def dumpStrChars (s : String) : List Char :=
  '"' :: (s.data.map escChar).flatten ++ ['"']

/-- Decimal digit character. -/
def digitChar (d : Nat) : Char := Char.ofNat (48 + d)

/-- Decimal digits of a natural number, most significant first, as
Python's `str` renders it. -/
def natDigits (n : Nat) : List Char :=
  if _ : n < 10 then [digitChar n]
  else natDigits (n / 10) ++ [digitChar (n % 10)]
decreasing_by exact Nat.div_lt_self (by omega) (by omega)

/-- Python's `str` of an integer: optional minus sign then digits. -/
def intChars (n : Int) : List Char :=
  if n < 0 then '-' :: natDigits (-n).toNat else natDigits n.toNat

mutual

/-- Characters of `json.dumps(v, separators=(",", ":"))`: compact JSON,
no whitespace after separators. -/
def dumpsChars : Val → List Char
  | .none => "null".data
  | .bool true => "true".data
  | .bool false => "false".data
  | .int n => intChars n
  | .str s => dumpStrChars s
  | .list xs => '[' :: dumpsList xs ++ [']']
  | .dict kvs => Char.ofNat 123 :: dumpsDict kvs ++ [Char.ofNat 125]

/-- Comma-separated renderings of array elements. -/
def dumpsList : List Val → List Char
  | [] => []
  | [v] => dumpsChars v
  | v :: w :: rest => dumpsChars v ++ ',' :: dumpsList (w :: rest)

/-- Comma-separated `"key":value` renderings of object entries. -/
def dumpsDict : List (String × Val) → List Char
  | [] => []
  | [(k, v)] => dumpStrChars k ++ ':' :: dumpsChars v
  | (k, v) :: e :: rest =>
      dumpStrChars k ++ ':' :: dumpsChars v ++ ',' :: dumpsDict (e :: rest)

end

/-- `json.dumps(v, separators=(",", ":"))` as a string. -/
def dumps (v : Val) : String := ⟨dumpsChars v⟩

/-- One entry of the model list returned by `client.models.list()`:
its `id` attribute and its `to_dict()` rendering. -/
structure Model where
  id : String
  toDict : Val

/-- The object returned by `client.completions.create` /
`client.chat.completions.create`: `toDict` is its `to_dict()` rendering
(non-streaming use); iterating it yields `chunks` (each chunk already in
`to_dict()` form) and then, when `streamErr = some e`, raises an
exception whose message is `e`. -/
structure Resp where
  toDict : Val
  chunks : List Val
  streamErr : Option String

/-- The external OpenAI-compatible inference client, as the adapter uses
it. `listModels` is indexed by how many `models.list()` calls were made
before, so that re-resolution (absence of caching) is observable;
`.error msg` models the call raising an exception with message `msg`.
`completions`/`chatCompletions` model the whole call expression
`client...create(**payload)` applied to the payload value. -/
structure Client where
  listModels : Nat → Except String (List Model)
  completions : Val → Except String Resp
  chatCompletions : Val → Except String Resp

/-- One item yielded by the engine generators: a dict (`obj`) or a
streaming text frame (`str`). -/
inductive OutputUnit where
  | obj (v : Val) : OutputUnit
  | str (s : String) : OutputUnit

/-- The uniform error unit `{"error": msg}`. -/
def errorUnit (msg : String) : OutputUnit :=
  .obj (Val.dict [("error", Val.str msg)])

/-- Result of running an async generator body: the units it yielded, and
the exception that escaped it (`none` when it finished normally). -/
abbrev GenOut := List OutputUnit × Option String

/-- `try: <body> except Exception as e: yield {"error": str(e)}`:
units already yielded are kept, an escaping exception becomes one
trailing error unit, and nothing propagates. -/
def catchAll : GenOut → List OutputUnit
  | (us, Option.none) => us
  | (us, some e) => us ++ [errorUnit e]

/-- `openai_input.get("stream", False)` as evaluated inside the handler's
`try` block: on a dict it is an ordinary lookup with default `False`; on
any other value the attribute access raises (caught by the `try`). -/
def streamFlag : Val → Except String Val
  | .dict kvs => .ok (pyGet kvs "stream" (Val.bool false))
  | _ => .error "AttributeError"

/-- Body of `LlamaCPPOpenAIEngine._handle_chat_or_completion_request`'s
`try` block: perform the chat or completion call; non-streaming yields
the response dict; streaming yields one `"data: " + compact JSON + "\n\n"`
frame per chunk and then `"data: [DONE]"`, or escapes with the stream's
exception after the frames already yielded. -/
def chatBody (c : Client) (openai_input : Val) (chat : Bool) : GenOut :=
  match (if chat then c.chatCompletions openai_input
         else c.completions openai_input) with
  | .error e => ([], some e)
  | .ok response =>
    match streamFlag openai_input with
    | .error e => ([], some e)
    | .ok fl =>
      if fl.truthy = false then ([OutputUnit.obj response.toDict], Option.none)
      else
        let frames := response.chunks.map fun ch =>
          OutputUnit.str ("data: " ++ dumps ch ++ "\n\n")
        match response.streamErr with
        | Option.none => (frames ++ [OutputUnit.str "data: [DONE]"], Option.none)
        | some e => (frames, some e)

/-- `LlamaCPPOpenAIEngine._handle_chat_or_completion_request`: the body
wrapped in `try/except`, so every fault becomes a trailing error unit. -/
def handleChatOrCompletion (c : Client) (openai_input : Val) (chat : Bool) :
    List OutputUnit :=
  catchAll (chatBody c openai_input chat)

/-- Body of `LlamaCPPOpenAIEngine._handle_model_request`'s `try` block:
list models (one `models.list()` call, hence the counter bump either
way) and yield `{"object": "list", "data": [...]}`. -/
def modelBody (c : Client) (n : Nat) : GenOut × Nat :=
  match c.listModels n with
  | .ok models =>
      (([OutputUnit.obj (Val.dict
          [("object", Val.str "list"),
           ("data", Val.list (models.map Model.toDict))])], Option.none),
       n + 1)
  | .error e => (([], some e), n + 1)

/-- `LlamaCPPOpenAIEngine._handle_model_request`: body wrapped in
`try/except`. -/
def handleModelRequest (c : Client) (n : Nat) : List OutputUnit × Nat :=
  (catchAll (modelBody c n).1, (modelBody c n).2)

/-- `LlamaCPPOpenAIEngine.generate`: dispatch on `openai_route` —
`/v1/models` to the model handler, the two completion routes to the
chat-or-completion handler (with `chat` set by comparing the route to
`/v1/chat/completions`, and `openai_input` passed verbatim), anything
else to a single `{"error": "invalid route"}` unit. -/
def openaiGenerate (c : Client) (n : Nat) (j : JobInput) : GenOut × Nat :=
  if valEqStr j.openai_route "/v1/models" then
    (((handleModelRequest c n).1, Option.none), (handleModelRequest c n).2)
  else if valEqStr j.openai_route "/v1/chat/completions" ∨
      valEqStr j.openai_route "/v1/completions" then
    ((handleChatOrCompletion c j.openai_input
        (valEqStr j.openai_route "/v1/chat/completions"), Option.none), n)
  else
    (([errorUnit "invalid route"], Option.none), n)

/-- `LlamaCPPEngine.generate`: resolve the model as
`client.models.list().data[0].id` — outside any `try`, so a listing
fault or an empty model list escapes as an exception — then build an
OpenAI-style `JobInput` routing a string `llm_input` to
`/v1/completions` (payload `{model, prompt, stream}`) and anything else
to `/v1/chat/completions` (payload `{model, messages, stream}`), and
delegate to `LlamaCPPOpenAIEngine.generate`. -/
def llamaGenerate (c : Client) (n : Nat) (j : JobInput) : GenOut × Nat :=
  match c.listModels n with
  | .error e => (([], some e), n + 1)
  | .ok [] => (([], some "list index out of range"), n + 1)
  | .ok (m :: _) =>
    let payload : Val :=
      if isStr j.llm_input then
        Val.dict [("model", Val.str m.id), ("prompt", j.llm_input),
                  ("stream", j.stream)]
      else
        Val.dict [("model", Val.str m.id), ("messages", j.llm_input),
                  ("stream", j.stream)]
    let route : String :=
      if isStr j.llm_input then "/v1/completions" else "/v1/chat/completions"
    openaiGenerate c (n + 1)
      (JobInput.init [("openai_route", Val.str route), ("openai_input", payload)])

/-- `handler.handler` (per job, given the job's `input` map): normalize
with `JobInput`, pick `LlamaCPPOpenAIEngine` when `openai_route` is
truthy and `LlamaCPPEngine` otherwise, and relay that engine's
`generate` output. -/
def handler (c : Client) (n : Nat) (input : List (String × Val)) :
    GenOut × Nat :=
  let ji := JobInput.init input
  if ji.openai_route.truthy then openaiGenerate c n ji
  else llamaGenerate c n ji

/-- A decimal digit character is never a newline. -/
theorem digitChar_ne_nl : ∀ d < 10, digitChar d ≠ '\n' := by decide

/-- A hex digit character is never a newline. -/
theorem hexDigit_ne_nl : ∀ d < 16, hexDigit d ≠ '\n' := by decide

/-- `hex4` emits no newline. -/
theorem nl_not_mem_hex4 (n : Nat) : '\n' ∉ hex4 n := by
  intro hm
  rcases List.mem_map.mp hm with ⟨k, _, hk⟩
  exact hexDigit_ne_nl _ (Nat.mod_lt _ (by omega)) hk

/-- `natDigits` emits no newline. -/
theorem nl_not_mem_natDigits (n : Nat) : '\n' ∉ natDigits n := by
  induction n using Nat.strong_induction_on with
  | _ n ih =>
    rw [natDigits]
    split_ifs with h
    · intro hm
      rcases List.mem_cons.mp hm with hc | hm
      · exact digitChar_ne_nl _ h hc.symm
      · exact absurd hm (List.not_mem_nil _)
    · intro hm
      rcases List.mem_append.mp hm with hm | hm
      · exact ih _ (Nat.div_lt_self (by omega) (by omega)) hm
      rcases List.mem_cons.mp hm with hc | hm
      · exact digitChar_ne_nl _ (Nat.mod_lt _ (by omega)) hc.symm
      · exact absurd hm (List.not_mem_nil _)

/-- `intChars` emits no newline. -/
theorem nl_not_mem_intChars (n : Int) : '\n' ∉ intChars n := by
  unfold intChars
  split_ifs with h
  · intro hm
    rcases List.mem_cons.mp hm with hc | hm
    · exact absurd hc (by decide)
    · exact nl_not_mem_natDigits _ hm
  · exact nl_not_mem_natDigits _

/-- `escChar` emits no newline. -/
theorem nl_not_mem_escChar (c : Char) : '\n' ∉ escChar c := by
  unfold escChar
  split_ifs with h1 h2 h3 h4 h5 h6 h7 h8 h9
  · decide
  · decide
  · decide
  · decide
  · decide
  · decide
  · decide
  · intro hm
    rcases List.mem_cons.mp hm with hc | hm
    · exact absurd hc (by decide)
    rcases List.mem_cons.mp hm with hc | hm
    · exact absurd hc (by decide)
    exact nl_not_mem_hex4 _ hm
  · intro hm
    rcases List.mem_append.mp hm with hm | hm <;>
    · rcases List.mem_cons.mp hm with hc | hm
      · exact absurd hc (by decide)
      rcases List.mem_cons.mp hm with hc | hm
      · exact absurd hc (by decide)
      exact nl_not_mem_hex4 _ hm
  · intro hm
    rcases List.mem_cons.mp hm with hc | hm
    · exact h3 hc.symm
    · exact absurd hm (List.not_mem_nil _)

/-- A rendered JSON string literal contains no newline. -/
theorem nl_not_mem_dumpStrChars (s : String) : '\n' ∉ dumpStrChars s := by
  intro hm
  unfold dumpStrChars at hm
  rcases List.mem_cons.mp hm with hc | hm
  · exact absurd hc (by decide)
  rcases List.mem_append.mp hm with hm | hm
  · rcases List.mem_flatten.mp hm with ⟨l, hl, hml⟩
    rcases List.mem_map.mp hl with ⟨ch, _, rfl⟩
    exact nl_not_mem_escChar ch hml
  · rcases List.mem_cons.mp hm with hc | hm
    · exact absurd hc (by decide)
    · exact absurd hm (List.not_mem_nil _)

mutual

/-- Compact JSON rendering of a value contains no newline. -/
theorem nl_not_mem_dumpsChars : ∀ v : Val, '\n' ∉ dumpsChars v
  | .none => by intro hm; rw [dumpsChars] at hm; exact absurd hm (by decide)
  | .bool true => by intro hm; rw [dumpsChars] at hm; exact absurd hm (by decide)
  | .bool false => by intro hm; rw [dumpsChars] at hm; exact absurd hm (by decide)
  | .int n => by intro hm; rw [dumpsChars] at hm; exact nl_not_mem_intChars n hm
  | .str s => by intro hm; rw [dumpsChars] at hm; exact nl_not_mem_dumpStrChars s hm
  | .list xs => by
      intro hm
      rw [dumpsChars] at hm
      rcases List.mem_cons.mp hm with hc | hm
      · exact absurd hc (by decide)
      rcases List.mem_append.mp hm with hm | hm
      · exact nl_not_mem_dumpsList xs hm
      · exact absurd hm (by decide)
  | .dict kvs => by
      intro hm
      rw [dumpsChars] at hm
      rcases List.mem_cons.mp hm with hc | hm
      · exact absurd hc (by decide)
      rcases List.mem_append.mp hm with hm | hm
      · exact nl_not_mem_dumpsDict kvs hm
      · exact absurd hm (by decide)

/-- Compact JSON rendering of an array body contains no newline. -/
theorem nl_not_mem_dumpsList : ∀ xs : List Val, '\n' ∉ dumpsList xs
  | [] => by intro hm; rw [dumpsList] at hm; exact absurd hm (List.not_mem_nil _)
  | [v] => by intro hm; rw [dumpsList] at hm; exact nl_not_mem_dumpsChars v hm
  | v :: w :: rest => by
      intro hm
      rw [dumpsList] at hm
      rcases List.mem_append.mp hm with hm | hm
      · exact nl_not_mem_dumpsChars v hm
      rcases List.mem_cons.mp hm with hc | hm
      · exact absurd hc (by decide)
      · exact nl_not_mem_dumpsList (w :: rest) hm

/-- Compact JSON rendering of an object body contains no newline. -/
theorem nl_not_mem_dumpsDict : ∀ kvs : List (String × Val), '\n' ∉ dumpsDict kvs
  | [] => by intro hm; rw [dumpsDict] at hm; exact absurd hm (List.not_mem_nil _)
  | [(k, v)] => by
      intro hm
      rw [dumpsDict] at hm
      rcases List.mem_append.mp hm with hm | hm
      · exact nl_not_mem_dumpStrChars k hm
      rcases List.mem_cons.mp hm with hc | hm
      · exact absurd hc (by decide)
      · exact nl_not_mem_dumpsChars v hm
  | (k, v) :: e :: rest => by
      intro hm
      rw [dumpsDict] at hm
      rcases List.mem_append.mp hm with hm | hm
      · rcases List.mem_append.mp hm with hm | hm
        · exact nl_not_mem_dumpStrChars k hm
        rcases List.mem_cons.mp hm with hc | hm
        · exact absurd hc (by decide)
        · exact nl_not_mem_dumpsChars v hm
      · rcases List.mem_cons.mp hm with hc | hm
        · exact absurd hc (by decide)
        · exact nl_not_mem_dumpsDict (e :: rest) hm

end

/-- The compact JSON string of any value contains no newline character. -/
theorem nl_not_mem_dumps (v : Val) : '\n' ∉ (dumps v).data :=
  nl_not_mem_dumpsChars v

/-- A chunk frame always differs from the terminal sentinel: the frame
ends in a newline pair, the sentinel contains no newline. -/
theorem frame_ne_done (ch : Val) :
    "data: " ++ dumps ch ++ "\n\n" ≠ "data: [DONE]" := by
  intro h
  have hd := congrArg String.data h
  rw [String.data_append, String.data_append] at hd
  have hmem : '\n' ∈ ("data: ".data ++ (dumps ch).data) ++ "\n\n".data :=
    List.mem_append.mpr (Or.inr (by decide))
  rw [hd] at hmem
  exact absurd hmem (by decide)

/-- The `[DONE]` sentinel occurs neither among chunk frames nor as the
trailing error unit. -/
theorem done_not_mem_frames_err (chunks : List Val) (e : String) :
    OutputUnit.str "data: [DONE]" ∉
      chunks.map (fun ch => OutputUnit.str ("data: " ++ dumps ch ++ "\n\n")) ++
        [errorUnit e] := by
  intro hm
  rcases List.mem_append.mp hm with hm | hm
  · rcases List.mem_map.mp hm with ⟨ch, _, heq⟩
    exact frame_ne_done ch (OutputUnit.str.inj heq)
  · rcases List.mem_cons.mp hm with hc | hm
    · exact absurd hc (by simp [errorUnit])
    · exact absurd hm (List.not_mem_nil _)

/-- Claim C3: a streaming completion or chat-completion call that
receives N chunks and no failure yields exactly N+1 units — the N chunk
frames `"data: " ++ compact JSON ++ "\n\n"` in chunk order, then the bare
`"data: [DONE]"` sentinel — and compact JSON never embeds a line break. -/
theorem C3_stream_success (c : Client) (inp : Val) (chat : Bool)
    (resp : Resp) (fl : Val)
    (hcall : (if chat then c.chatCompletions inp else c.completions inp) =
      Except.ok resp)
    (hflag : streamFlag inp = Except.ok fl)
    (htruthy : fl.truthy = true)
    (hnoerr : resp.streamErr = Option.none) :
    handleChatOrCompletion c inp chat =
      resp.chunks.map
        (fun ch => OutputUnit.str ("data: " ++ dumps ch ++ "\n\n")) ++
        [OutputUnit.str "data: [DONE]"] ∧
    (handleChatOrCompletion c inp chat).length = resp.chunks.length + 1 ∧
    ∀ ch : Val, '\n' ∉ (dumps ch).data := by
  have hbody : chatBody c inp chat =
      (resp.chunks.map
        (fun ch => OutputUnit.str ("data: " ++ dumps ch ++ "\n\n")) ++
        [OutputUnit.str "data: [DONE]"], Option.none) := by
    simp [chatBody, hcall, hflag, htruthy, hnoerr]
  have h1 : handleChatOrCompletion c inp chat =
      resp.chunks.map
        (fun ch => OutputUnit.str ("data: " ++ dumps ch ++ "\n\n")) ++
        [OutputUnit.str "data: [DONE]"] := by
    unfold handleChatOrCompletion
    rw [hbody]
    rfl
  refine ⟨h1, ?_, fun ch => nl_not_mem_dumps ch⟩
  rw [h1]
  simp

def wModel : Model := ⟨"m0", Val.dict [("id", Val.str "m0")]⟩

def wRespStream : Resp :=
  ⟨Val.none, [Val.dict [("d", Val.int 1)], Val.dict [("d", Val.int 2)]],
   Option.none⟩

def wClientStream : Client :=
  ⟨fun _ => .ok [wModel], fun _ => .ok wRespStream,
   fun _ => .ok wRespStream⟩

/-- `C3_stream_success` at a concrete streaming chat call with two
chunks. -/
theorem C3_stream_success_witness :
    handleChatOrCompletion wClientStream
      (Val.dict [("stream", Val.bool true)]) true =
      wRespStream.chunks.map
        (fun ch => OutputUnit.str ("data: " ++ dumps ch ++ "\n\n")) ++
        [OutputUnit.str "data: [DONE]"] ∧
    (handleChatOrCompletion wClientStream
      (Val.dict [("stream", Val.bool true)]) true).length =
      wRespStream.chunks.length + 1 ∧
    ∀ ch : Val, '\n' ∉ (dumps ch).data :=
  C3_stream_success wClientStream (Val.dict [("stream", Val.bool true)])
    true wRespStream (Val.bool true) rfl rfl rfl rfl

/-- Claim C4: a streaming call whose upstream stream raises after k
chunks yields exactly k+1 units — the k frames already produced followed
by one `{error: message}` unit — and the `[DONE]` sentinel never
appears. -/
theorem C4_stream_failure (c : Client) (inp : Val) (chat : Bool)
    (resp : Resp) (fl : Val) (e : String)
    (hcall : (if chat then c.chatCompletions inp else c.completions inp) =
      Except.ok resp)
    (hflag : streamFlag inp = Except.ok fl)
    (htruthy : fl.truthy = true)
    (herr : resp.streamErr = some e) :
    handleChatOrCompletion c inp chat =
      resp.chunks.map
        (fun ch => OutputUnit.str ("data: " ++ dumps ch ++ "\n\n")) ++
        [errorUnit e] ∧
    (handleChatOrCompletion c inp chat).length = resp.chunks.length + 1 ∧
    OutputUnit.str "data: [DONE]" ∉ handleChatOrCompletion c inp chat := by
  have hbody : chatBody c inp chat =
      (resp.chunks.map
        (fun ch => OutputUnit.str ("data: " ++ dumps ch ++ "\n\n")),
       some e) := by
    simp [chatBody, hcall, hflag, htruthy, herr]
  have h1 : handleChatOrCompletion c inp chat =
      resp.chunks.map
        (fun ch => OutputUnit.str ("data: " ++ dumps ch ++ "\n\n")) ++
        [errorUnit e] := by
    unfold handleChatOrCompletion
    rw [hbody]
    rfl
  refine ⟨h1, ?_, ?_⟩
  · rw [h1]
    simp
  · rw [h1]
    exact done_not_mem_frames_err resp.chunks e

def wRespStreamErr : Resp :=
  ⟨Val.none, [Val.dict [("d", Val.int 1)]], some "boom"⟩

def wClientStreamErr : Client :=
  ⟨fun _ => .ok [wModel], fun _ => .ok wRespStreamErr,
   fun _ => .ok wRespStreamErr⟩

/-- `C4_stream_failure` at a concrete streaming completion call that
fails after one chunk. -/
theorem C4_stream_failure_witness :
    handleChatOrCompletion wClientStreamErr
      (Val.dict [("stream", Val.bool true)]) false =
      wRespStreamErr.chunks.map
        (fun ch => OutputUnit.str ("data: " ++ dumps ch ++ "\n\n")) ++
        [errorUnit "boom"] ∧
    (handleChatOrCompletion wClientStreamErr
      (Val.dict [("stream", Val.bool true)]) false).length =
      wRespStreamErr.chunks.length + 1 ∧
    OutputUnit.str "data: [DONE]" ∉
      handleChatOrCompletion wClientStreamErr
        (Val.dict [("stream", Val.bool true)]) false :=
  C4_stream_failure wClientStreamErr (Val.dict [("stream", Val.bool true)])
    false wRespStreamErr (Val.bool true) "boom" rfl rfl rfl rfl

/-- A value other than the string `s` compares unequal to `s` under
Python `==`. -/
theorem valEqStr_false {v : Val} {s : String} (h : v ≠ Val.str s) :
    valEqStr v s = false := by
  cases v with
  | str t =>
      simp only [valEqStr, decide_eq_false_iff_not]
      intro hts
      exact h (by rw [hts])
  | none => rfl
  | bool b => rfl
  | int n => rfl
  | list xs => rfl
  | dict kvs => rfl

/-- Claim C7: an explicit route outside the three recognized values
makes `LlamaCPPOpenAIEngine.generate` yield exactly one
`{error: "invalid route"}` unit; the result does not depend on the
client (the conclusion is the same for every `c`) and the model-listing
counter is untouched, so no inference call is made. -/
theorem C7_invalid_route (c : Client) (n : Nat) (j : JobInput)
    (h1 : j.openai_route ≠ Val.str "/v1/models")
    (h2 : j.openai_route ≠ Val.str "/v1/chat/completions")
    (h3 : j.openai_route ≠ Val.str "/v1/completions") :
    openaiGenerate c n j = (([errorUnit "invalid route"], Option.none), n) := by
  unfold openaiGenerate
  rw [valEqStr_false h1, valEqStr_false h2, valEqStr_false h3]
  simp

/-- `C7_invalid_route` at the concrete unknown route `/v1/foo`. -/
theorem C7_invalid_route_witness :
    openaiGenerate wClientStream 0
      { llm_input := Val.none, stream := Val.bool false,
        openai_route := Val.str "/v1/foo", openai_input := Val.none } =
      (([errorUnit "invalid route"], Option.none), 0) :=
  C7_invalid_route wClientStream 0 _ (by simp) (by simp) (by simp)

/-- Claim C5: with no explicit route, a string `llm_input` is dispatched
to `/v1/completions` with payload `{model, prompt, stream}` and a
message-sequence `llm_input` to `/v1/chat/completions` with payload
`{model, messages, stream}`, `model` being the head of the fresh model
listing and `stream` the job's flag. -/
theorem C5_shape_routing (c : Client) (n : Nat) (j : JobInput)
    (m : Model) (ms : List Model)
    (hlist : c.listModels n = Except.ok (m :: ms)) :
    (∀ s : String, j.llm_input = Val.str s →
      llamaGenerate c n j = openaiGenerate c (n + 1) (JobInput.init
        [("openai_route", Val.str "/v1/completions"),
         ("openai_input", Val.dict
           [("model", Val.str m.id), ("prompt", Val.str s),
            ("stream", j.stream)])])) ∧
    (∀ msgs : List Val, j.llm_input = Val.list msgs →
      llamaGenerate c n j = openaiGenerate c (n + 1) (JobInput.init
        [("openai_route", Val.str "/v1/chat/completions"),
         ("openai_input", Val.dict
           [("model", Val.str m.id), ("messages", Val.list msgs),
            ("stream", j.stream)])])) := by
  constructor
  · intro s hs
    unfold llamaGenerate
    rw [hlist, hs]
    simp [isStr]
  · intro msgs hmsgs
    unfold llamaGenerate
    rw [hlist, hmsgs]
    simp [isStr]

/-- `C5_shape_routing` at a concrete prompt job and a concrete chat
job. -/
theorem C5_shape_routing_witness :
    llamaGenerate wClientStream 0
      { llm_input := Val.str "hi", stream := Val.bool false,
        openai_route := Val.none, openai_input := Val.none } =
      openaiGenerate wClientStream 1 (JobInput.init
        [("openai_route", Val.str "/v1/completions"),
         ("openai_input", Val.dict
           [("model", Val.str wModel.id), ("prompt", Val.str "hi"),
            ("stream", Val.bool false)])]) :=
  (C5_shape_routing wClientStream 0
    { llm_input := Val.str "hi", stream := Val.bool false,
      openai_route := Val.none, openai_input := Val.none }
    wModel [] rfl).1 "hi" rfl

/-- Claim C9: every non-string `llm_input` — `None` included, which is
what the normalizer produces when neither `messages` nor `prompt` is in
the map — takes the chat branch, `/v1/chat/completions` with `messages`
set to that very value; there is no third branch and no rejection. -/
theorem C9_nonstring_chat (c : Client) (n : Nat) (j : JobInput)
    (m : Model) (ms : List Model)
    (hlist : c.listModels n = Except.ok (m :: ms))
    (hns : isStr j.llm_input = false) :
    llamaGenerate c n j = openaiGenerate c (n + 1) (JobInput.init
      [("openai_route", Val.str "/v1/chat/completions"),
       ("openai_input", Val.dict
         [("model", Val.str m.id), ("messages", j.llm_input),
          ("stream", j.stream)])]) ∧
    (∀ input : List (String × Val), dget input "messages" = Option.none →
      dget input "prompt" = Option.none →
      (JobInput.init input).llm_input = Val.none) := by
  constructor
  · unfold llamaGenerate
    rw [hlist, hns]
    simp
  · intro input hm hp
    simp [JobInput.init, pyGet, hm, hp]

/-- `C9_nonstring_chat` at the concrete `llm_input = None` job. -/
theorem C9_nonstring_chat_witness :
    llamaGenerate wClientStream 0
      { llm_input := Val.none, stream := Val.bool false,
        openai_route := Val.none, openai_input := Val.none } =
      openaiGenerate wClientStream 1 (JobInput.init
        [("openai_route", Val.str "/v1/chat/completions"),
         ("openai_input", Val.dict
           [("model", Val.str wModel.id), ("messages", Val.none),
            ("stream", Val.bool false)])]) ∧
    (∀ input : List (String × Val), dget input "messages" = Option.none →
      dget input "prompt" = Option.none →
      (JobInput.init input).llm_input = Val.none) :=
  C9_nonstring_chat wClientStream 0
    { llm_input := Val.none, stream := Val.bool false,
      openai_route := Val.none, openai_input := Val.none }
    wModel [] rfl rfl

/-- Claim C6: every shape-routed job — prompt-shaped or chat-shaped —
resolves its model as the head of a fresh `models.list()` call made
during that very `generate` call (the listing at the current counter
index), advancing the counter by exactly one; the next `generate`
re-resolves against the next listing, so the result is never cached
across calls. -/
theorem C6_fresh_model_resolution (c : Client) (n : Nat) (j : JobInput)
    (m1 m2 : Model) (l1 l2 : List Model)
    (h1 : c.listModels n = Except.ok (m1 :: l1))
    (h2 : c.listModels (n + 1) = Except.ok (m2 :: l2)) :
    llamaGenerate c n j =
      ((handleChatOrCompletion c
          (if isStr j.llm_input then
            Val.dict [("model", Val.str m1.id), ("prompt", j.llm_input),
                      ("stream", j.stream)]
          else
            Val.dict [("model", Val.str m1.id), ("messages", j.llm_input),
                      ("stream", j.stream)])
          (!isStr j.llm_input), Option.none), n + 1) ∧
    llamaGenerate c ((llamaGenerate c n j).2) j =
      ((handleChatOrCompletion c
          (if isStr j.llm_input then
            Val.dict [("model", Val.str m2.id), ("prompt", j.llm_input),
                      ("stream", j.stream)]
          else
            Val.dict [("model", Val.str m2.id), ("messages", j.llm_input),
                      ("stream", j.stream)])
          (!isStr j.llm_input), Option.none), n + 2) := by
  have key : ∀ (k : Nat) (m : Model) (l : List Model),
      c.listModels k = Except.ok (m :: l) →
      llamaGenerate c k j =
        ((handleChatOrCompletion c
            (if isStr j.llm_input then
              Val.dict [("model", Val.str m.id), ("prompt", j.llm_input),
                        ("stream", j.stream)]
            else
              Val.dict [("model", Val.str m.id), ("messages", j.llm_input),
                        ("stream", j.stream)])
            (!isStr j.llm_input), Option.none), k + 1) := by
    intro k m l hk
    unfold llamaGenerate
    rw [hk]
    cases hb : isStr j.llm_input <;>
      simp [hb, openaiGenerate, JobInput.init, pyGet, dget, valEqStr]
  have k1 := key n m1 l1 h1
  refine ⟨k1, ?_⟩
  rw [k1]
  exact key (n + 1) m2 l2 h2

def wModelB : Model := ⟨"m1", Val.dict [("id", Val.str "m1")]⟩

def wClientVary : Client :=
  ⟨fun k => if k = 0 then .ok [wModel] else .ok [wModelB],
   fun _ => .ok wRespStream, fun _ => .ok wRespStream⟩

/-- `C6_fresh_model_resolution` for a chat-shaped job against a server
whose first listed model changes between the two listings. -/
theorem C6_fresh_model_resolution_witness :
    llamaGenerate wClientVary 0
      { llm_input := Val.list [Val.str "m"], stream := Val.bool false,
        openai_route := Val.none, openai_input := Val.none } =
      ((handleChatOrCompletion wClientVary
          (if isStr (Val.list [Val.str "m"]) then
            Val.dict [("model", Val.str wModel.id),
                      ("prompt", Val.list [Val.str "m"]),
                      ("stream", Val.bool false)]
          else
            Val.dict [("model", Val.str wModel.id),
                      ("messages", Val.list [Val.str "m"]),
                      ("stream", Val.bool false)])
          (!isStr (Val.list [Val.str "m"])), Option.none), 1) ∧
    llamaGenerate wClientVary
      ((llamaGenerate wClientVary 0
        { llm_input := Val.list [Val.str "m"], stream := Val.bool false,
          openai_route := Val.none, openai_input := Val.none }).2)
      { llm_input := Val.list [Val.str "m"], stream := Val.bool false,
        openai_route := Val.none, openai_input := Val.none } =
      ((handleChatOrCompletion wClientVary
          (if isStr (Val.list [Val.str "m"]) then
            Val.dict [("model", Val.str wModelB.id),
                      ("prompt", Val.list [Val.str "m"]),
                      ("stream", Val.bool false)]
          else
            Val.dict [("model", Val.str wModelB.id),
                      ("messages", Val.list [Val.str "m"]),
                      ("stream", Val.bool false)])
          (!isStr (Val.list [Val.str "m"])), Option.none), 2) :=
  C6_fresh_model_resolution wClientVary 0
    { llm_input := Val.list [Val.str "m"], stream := Val.bool false,
      openai_route := Val.none, openai_input := Val.none }
    wModel wModelB [] [] rfl rfl

/-- Claim C8: the normalizer takes `llm_input` from the `messages` field
whenever that key is in the map (falling back to `prompt`, then `None`),
takes `stream` from the `stream` field with default `False`, and defaults
`openai_route` and `openai_input` to `None` when absent. -/
theorem C8_normalizer (job : List (String × Val)) :
    (∀ v : Val, dget job "messages" = some v →
      (JobInput.init job).llm_input = v) ∧
    (dget job "messages" = Option.none → ∀ v : Val,
      dget job "prompt" = some v → (JobInput.init job).llm_input = v) ∧
    (dget job "messages" = Option.none → dget job "prompt" = Option.none →
      (JobInput.init job).llm_input = Val.none) ∧
    (∀ v : Val, dget job "stream" = some v →
      (JobInput.init job).stream = v) ∧
    (dget job "stream" = Option.none →
      (JobInput.init job).stream = Val.bool false) ∧
    (dget job "openai_route" = Option.none →
      (JobInput.init job).openai_route = Val.none) ∧
    (dget job "openai_input" = Option.none →
      (JobInput.init job).openai_input = Val.none) := by
  refine ⟨?_, ?_, ?_, ?_, ?_, ?_, ?_⟩
  · intro v hv
    simp [JobInput.init, pyGet, hv]
  · intro hm v hv
    simp [JobInput.init, pyGet, hm, hv]
  · intro hm hp
    simp [JobInput.init, pyGet, hm, hp]
  · intro v hv
    simp [JobInput.init, pyGet, hv]
  · intro hs
    simp [JobInput.init, pyGet, hs]
  · intro hr
    simp [JobInput.init, pyGet, hr]
  · intro hi
    simp [JobInput.init, pyGet, hi]

/-- `C8_normalizer` at a concrete map holding both `messages` and
`prompt` plus a `stream` flag. -/
theorem C8_normalizer_witness :
    (JobInput.init
      [("messages", Val.list [Val.str "msg"]), ("prompt", Val.str "p"),
       ("stream", Val.bool true)]).llm_input = Val.list [Val.str "msg"] ∧
    (JobInput.init
      [("messages", Val.list [Val.str "msg"]), ("prompt", Val.str "p"),
       ("stream", Val.bool true)]).stream = Val.bool true ∧
    (JobInput.init
      [("messages", Val.list [Val.str "msg"]), ("prompt", Val.str "p"),
       ("stream", Val.bool true)]).openai_route = Val.none :=
  ⟨(C8_normalizer _).1 (Val.list [Val.str "msg"]) rfl,
   (C8_normalizer _).2.2.2.1 (Val.bool true) rfl,
   (C8_normalizer _).2.2.2.2.2.1 rfl⟩

def cFail : Client :=
  ⟨fun _ => .error "connection refused", fun _ => .error "unreachable",
   fun _ => .error "unreachable"⟩

/-- Claim C1 counterexample: on a shape-routed job, a fault in the
model-resolution call `client.models.list().data[0].id` — made in
`LlamaCPPEngine.generate` before route dispatch, outside every
`try` block — escapes `generate` as an exception (`some` escaping
message) with zero output units produced, instead of being converted to
a `{error: message}` unit. -/
theorem C1_counterexample :
    handler cFail 0 [("prompt", Val.str "hi")] =
      (([], some "connection refused"), 1) ∧
    (handler cFail 0 [("prompt", Val.str "hi")]).1.1 = [] :=
  ⟨rfl, rfl⟩

/-- Claim C1 (amended): every fault raised inside
`LlamaCPPOpenAIEngine.generate` — any route, streaming or not,
including the model-listing route's own `models.list()` call — is
caught and converted into a single `{error: message}` output unit, so
no exception escapes it: a model-listing fault yields exactly that one
unit; a failing completion/chat create call yields exactly that one
unit; a stream failing after its chunks yields exactly the frames
already produced plus that one unit; a fault reading the payload's
`stream` flag yields exactly that one unit. The shape-routed
`LlamaCPPEngine.generate` path enjoys the no-escape guarantee only once
its unguarded model-resolution call has succeeded with a nonempty model
list. -/
theorem C1_total_error_capture :
    (∀ (c : Client) (n : Nat) (j : JobInput),
      (openaiGenerate c n j).1.2 = Option.none) ∧
    (∀ (c : Client) (n : Nat) (j : JobInput) (e : String),
      j.openai_route = Val.str "/v1/models" →
      c.listModels n = Except.error e →
      openaiGenerate c n j = (([errorUnit e], Option.none), n + 1)) ∧
    (∀ (c : Client) (inp : Val) (chat : Bool) (e : String),
      (if chat then c.chatCompletions inp else c.completions inp) =
        Except.error e →
      handleChatOrCompletion c inp chat = [errorUnit e]) ∧
    (∀ (c : Client) (inp : Val) (chat : Bool) (resp : Resp) (fl : Val)
        (e : String),
      (if chat then c.chatCompletions inp else c.completions inp) =
        Except.ok resp →
      streamFlag inp = Except.ok fl → fl.truthy = true →
      resp.streamErr = some e →
      handleChatOrCompletion c inp chat =
        resp.chunks.map
          (fun ch => OutputUnit.str ("data: " ++ dumps ch ++ "\n\n")) ++
          [errorUnit e]) ∧
    (∀ (c : Client) (inp : Val) (chat : Bool) (resp : Resp) (e : String),
      (if chat then c.chatCompletions inp else c.completions inp) =
        Except.ok resp →
      streamFlag inp = Except.error e →
      handleChatOrCompletion c inp chat = [errorUnit e]) ∧
    (∀ (c : Client) (n : Nat) (j : JobInput) (m : Model) (ms : List Model),
      c.listModels n = Except.ok (m :: ms) →
      (llamaGenerate c n j).1.2 = Option.none) := by
  have h1 : ∀ (c : Client) (n : Nat) (j : JobInput),
      (openaiGenerate c n j).1.2 = Option.none := by
    intro c n j
    unfold openaiGenerate
    split_ifs <;> rfl
  refine ⟨h1, ?_, ?_, ?_, ?_, ?_⟩
  · intro c n j e hroute herr
    simp [openaiGenerate, hroute, valEqStr, handleModelRequest, modelBody,
          herr, catchAll]
  · intro c inp chat e hcall
    unfold handleChatOrCompletion chatBody
    rw [hcall]
    rfl
  · intro c inp chat resp fl e hcall hflag htruthy herr
    have hbody : chatBody c inp chat =
        (resp.chunks.map
          (fun ch => OutputUnit.str ("data: " ++ dumps ch ++ "\n\n")),
         some e) := by
      simp [chatBody, hcall, hflag, htruthy, herr]
    unfold handleChatOrCompletion
    rw [hbody]
    rfl
  · intro c inp chat resp e hcall hflag
    unfold handleChatOrCompletion chatBody
    rw [hcall, hflag]
    rfl
  · intro c n j m ms hm
    unfold llamaGenerate
    rw [hm]
    exact h1 c (n + 1) _

/-- `C1_total_error_capture` instantiated with faulting clients: a
failing model listing on the `/v1/models` route, a failing completion
create call, a stream failing after one chunk, a non-dict payload on a
chat call, and the fault-free no-escape cases. -/
theorem C1_total_error_capture_witness :
    (openaiGenerate wClientStream 0
      { llm_input := Val.none, stream := Val.bool false,
        openai_route := Val.str "/v1/nope", openai_input := Val.none }).1.2 =
      Option.none ∧
    openaiGenerate cFail 0
      { llm_input := Val.none, stream := Val.bool false,
        openai_route := Val.str "/v1/models", openai_input := Val.none } =
      (([errorUnit "connection refused"], Option.none), 1) ∧
    handleChatOrCompletion cFail (Val.dict []) false =
      [errorUnit "unreachable"] ∧
    handleChatOrCompletion wClientStreamErr
      (Val.dict [("stream", Val.bool true)]) false =
      wRespStreamErr.chunks.map
        (fun ch => OutputUnit.str ("data: " ++ dumps ch ++ "\n\n")) ++
        [errorUnit "boom"] ∧
    handleChatOrCompletion wClientStream Val.none true =
      [errorUnit "AttributeError"] ∧
    (llamaGenerate wClientStream 0
      { llm_input := Val.str "hi", stream := Val.bool false,
        openai_route := Val.none, openai_input := Val.none }).1.2 =
      Option.none :=
  ⟨C1_total_error_capture.1 wClientStream 0
    { llm_input := Val.none, stream := Val.bool false,
      openai_route := Val.str "/v1/nope", openai_input := Val.none },
   C1_total_error_capture.2.1 cFail 0
    { llm_input := Val.none, stream := Val.bool false,
      openai_route := Val.str "/v1/models", openai_input := Val.none }
    "connection refused" rfl rfl,
   C1_total_error_capture.2.2.1 cFail (Val.dict []) false "unreachable" rfl,
   C1_total_error_capture.2.2.2.1 wClientStreamErr
    (Val.dict [("stream", Val.bool true)]) false wRespStreamErr
    (Val.bool true) "boom" rfl rfl rfl rfl,
   C1_total_error_capture.2.2.2.2.1 wClientStream Val.none true wRespStream
    "AttributeError" rfl rfl,
   C1_total_error_capture.2.2.2.2.2 wClientStream 0
    { llm_input := Val.str "hi", stream := Val.bool false,
      openai_route := Val.none, openai_input := Val.none }
    wModel [] rfl⟩

def wRespPlain : Resp := ⟨Val.dict [("text", Val.str "ok")], [], Option.none⟩

def cPlain : Client :=
  ⟨fun _ => .ok [wModel], fun _ => .ok wRespPlain, fun _ => .ok wRespPlain⟩

/-- Claim C2 counterexample: the input map contains the `openai_route`
field (value `""`), yet the pipeline does not dispatch on that route:
it falls back to shape-based routing (model resolution and a completion
call, advancing the listing counter), whereas dispatching on the route
`""` verbatim would yield the single invalid-route unit and leave the
counter at 0. -/
theorem C2_counterexample :
    handler cPlain 0 [("openai_route", Val.str ""), ("prompt", Val.str "hi")] =
      (([OutputUnit.obj (Val.dict [("text", Val.str "ok")])],
        Option.none), 1) ∧
    openaiGenerate cPlain 0
      (JobInput.init
        [("openai_route", Val.str ""), ("prompt", Val.str "hi")]) =
      (([errorUnit "invalid route"], Option.none), 0) ∧
    handler cPlain 0 [("openai_route", Val.str ""), ("prompt", Val.str "hi")] ≠
      openaiGenerate cPlain 0
        (JobInput.init
          [("openai_route", Val.str ""), ("prompt", Val.str "hi")]) :=
  ⟨rfl, rfl, fun h => Nat.one_ne_zero (congrArg Prod.snd h)⟩

/-- Claim C2 (amended): when the map's `openai_route` value is truthy —
any nonempty route string — the pipeline dispatches it through
`LlamaCPPOpenAIEngine.generate`, whose result depends only on
`openai_route` and the verbatim `openai_input`, never on `llm_input`;
a falsy `openai_route` (such as `""` or `None`), even when the field is
present, falls back to shape-based routing. -/
theorem C2_explicit_route (c : Client) (n : Nat)
    (input : List (String × Val))
    (htruthy : (JobInput.init input).openai_route.truthy = true) :
    handler c n input = openaiGenerate c n (JobInput.init input) ∧
    ∀ j j2 : JobInput, j.openai_route = j2.openai_route →
      j.openai_input = j2.openai_input →
      openaiGenerate c n j = openaiGenerate c n j2 := by
  constructor
  · simp [handler, htruthy]
  · intro j j2 hr hi
    unfold openaiGenerate
    rw [hr, hi]

/-- `C2_explicit_route` at a concrete map with an explicit
`/v1/models` route. -/
theorem C2_explicit_route_witness :
    handler cPlain 0 [("openai_route", Val.str "/v1/models")] =
      openaiGenerate cPlain 0
        (JobInput.init [("openai_route", Val.str "/v1/models")]) ∧
    ∀ j j2 : JobInput, j.openai_route = j2.openai_route →
      j.openai_input = j2.openai_input →
      openaiGenerate cPlain 0 j = openaiGenerate cPlain 0 j2 :=
  C2_explicit_route cPlain 0 [("openai_route", Val.str "/v1/models")] rfl

/-- Claim C10: against a deterministic upstream client — one whose
model listing is the same at every call, the response and chunk
behavior being functions of the payload already — the units yielded by
the pipeline do not depend on the listing-call counter at all; in
particular running the same job a second time, starting from the
counter the first run advanced to, reproduces the first run's output
sequence unit for unit. -/
theorem C10_deterministic (c : Client)
    (hconst : ∀ k : Nat, c.listModels k = c.listModels 0) :
    (∀ (n1 n2 : Nat) (input : List (String × Val)),
      (handler c n1 input).1 = (handler c n2 input).1) ∧
    (∀ (n : Nat) (input : List (String × Val)),
      (handler c ((handler c n input).2) input).1 =
        (handler c n input).1) := by
  have hu : ∀ (k1 k2 : Nat) (j : JobInput),
      (openaiGenerate c k1 j).1 = (openaiGenerate c k2 j).1 := by
    intro k1 k2 j
    unfold openaiGenerate
    split_ifs
    · unfold handleModelRequest modelBody
      rw [hconst k1, hconst k2]
      cases c.listModels 0 <;> rfl
    · rfl
    · rfl
  have hl : ∀ (k1 k2 : Nat) (j : JobInput),
      (llamaGenerate c k1 j).1 = (llamaGenerate c k2 j).1 := by
    intro k1 k2 j
    unfold llamaGenerate
    rw [hconst k1, hconst k2]
    cases c.listModels 0 with
    | error e => rfl
    | ok ms =>
      cases ms with
      | nil => rfl
      | cons m tail => exact hu (k1 + 1) (k2 + 1) _
  have hh : ∀ (k1 k2 : Nat) (input : List (String × Val)),
      (handler c k1 input).1 = (handler c k2 input).1 := by
    intro k1 k2 input
    cases ht : (JobInput.init input).openai_route.truthy with
    | true =>
        simp only [handler, ht, if_true]
        exact hu k1 k2 _
    | false =>
        simp only [handler, ht, Bool.false_eq_true, if_false]
        exact hl k1 k2 _
  exact ⟨hh, fun n input => hh _ n input⟩

/-- `C10_deterministic` at a concrete job run twice against a
deterministic client: the second run starts at the counter the first
run advanced to, and its units equal the first run's. -/
theorem C10_deterministic_witness :
    (handler cPlain
      ((handler cPlain 0 [("prompt", Val.str "hi")]).2)
      [("prompt", Val.str "hi")]).1 =
      (handler cPlain 0 [("prompt", Val.str "hi")]).1 :=
  (C10_deterministic cPlain (fun _ => rfl)).2 0 [("prompt", Val.str "hi")]
